import Mathlib

/-!
Verification of `deluge/event.py`: the event classes, the `known_events`
registry populated by `DelugeEventMetaClass`, and the uniform
`name` / `args` views provided by `DelugeEvent`.
-/

set_option maxRecDepth 8000

namespace Deluge

/-- The classes defined in `deluge/event.py`, as an enumerated type.
`DelugeEvent` is the abstract base class; the remaining nineteen are the
concrete event variants, listed in source order. -/
inductive EventClass where
  | DelugeEvent
  | TorrentAddedEvent
  | TorrentRemovedEvent
  | PreTorrentRemovedEvent
  | TorrentStateChangedEvent
  | TorrentQueueChangedEvent
  | TorrentFolderRenamedEvent
  | TorrentFileRenamedEvent
  | TorrentFinishedEvent
  | TorrentResumedEvent
  | TorrentFileCompletedEvent
  | TorrentStorageMovedEvent
  | CreateTorrentProgressEvent
  | NewVersionAvailableEvent
  | SessionStartedEvent
  | SessionPausedEvent
  | SessionResumedEvent
  | ConfigValueChangedEvent
  | PluginEnabledEvent
  | PluginDisabledEvent
  deriving DecidableEq

/-- Python runtime values passed as event constructor arguments. The module
stores arguments untyped, so one dynamic value type covers the documented
string, int and bool fields (and the opaque `value` of
`ConfigValueChangedEvent`). -/
inductive Value where
  | str (s : String)
  | int (n : Int)
  | bool (b : Bool)
  deriving DecidableEq

/-- The `__name__` of each class, exactly as written in the source. -/
def className : EventClass → String
  | .DelugeEvent => "DelugeEvent"
  | .TorrentAddedEvent => "TorrentAddedEvent"
  | .TorrentRemovedEvent => "TorrentRemovedEvent"
  | .PreTorrentRemovedEvent => "PreTorrentRemovedEvent"
  | .TorrentStateChangedEvent => "TorrentStateChangedEvent"
  | .TorrentQueueChangedEvent => "TorrentQueueChangedEvent"
  | .TorrentFolderRenamedEvent => "TorrentFolderRenamedEvent"
  | .TorrentFileRenamedEvent => "TorrentFileRenamedEvent"
  | .TorrentFinishedEvent => "TorrentFinishedEvent"
  | .TorrentResumedEvent => "TorrentResumedEvent"
  | .TorrentFileCompletedEvent => "TorrentFileCompletedEvent"
  | .TorrentStorageMovedEvent => "TorrentStorageMovedEvent"
  | .CreateTorrentProgressEvent => "CreateTorrentProgressEvent"
  | .NewVersionAvailableEvent => "NewVersionAvailableEvent"
  | .SessionStartedEvent => "SessionStartedEvent"
  | .SessionPausedEvent => "SessionPausedEvent"
  | .SessionResumedEvent => "SessionResumedEvent"
  | .ConfigValueChangedEvent => "ConfigValueChangedEvent"
  | .PluginEnabledEvent => "PluginEnabledEvent"
  | .PluginDisabledEvent => "PluginDisabledEvent"

/-- A runtime instance of one of the event classes: its class, and the
`_args` attribute, which is absent (`none`) when the class's `__init__`
never sets it (the zero-field variants and the base class have no
`__init__`). -/
structure PyInstance where
  cls : EventClass
  _args : Option (List Value)
  deriving DecidableEq

/-- `DelugeEvent._get_name`: `return self.__class__.__name__` (the getter
behind the `name` property). -/
def _get_name (e : PyInstance) : String := className e.cls

/-- `DelugeEvent._get_args`: `if not hasattr(self, "_args"): return []` then
`return self._args` (the getter behind the `args` property). -/
def _get_args (e : PyInstance) : List Value :=
  match e._args with
  | none => []
  | some l => l

/-- Python dict assignment `d[k] = v` on an insertion-ordered association
list: replaces the value at an existing key in place, otherwise appends a
new binding at the end. -/
def dictAssign : List (String × EventClass) → String → EventClass →
    List (String × EventClass)
  | [], k, v => [(k, v)]
  | p :: rest, k, v =>
      if p.1 = k then (k, v) :: rest else p :: dictAssign rest k v

/-- Python dict lookup `d[k]`, returning `none` where Python raises
`KeyError`. -/
def lookupClass : List (String × EventClass) → String → Option EventClass
  | [], _ => none
  | p :: rest, k => if p.1 = k then some p.2 else lookupClass rest k

/-- `DelugeEventMetaClass.__init__`: every class created with the metaclass
is inserted into the registry under its class name, except the name
`"DelugeEvent"` itself (`if name != "DelugeEvent": known_events[name] = cls`). -/
def registerEvent (reg : List (String × EventClass)) (name : String)
    (cls : EventClass) : List (String × EventClass) :=
  if name = "DelugeEvent" then reg else dictAssign reg name cls

/-- The classes created while the module body of `event.py` runs, in source
order. -/
def moduleClasses : List EventClass :=
  [.DelugeEvent, .TorrentAddedEvent, .TorrentRemovedEvent,
   .PreTorrentRemovedEvent, .TorrentStateChangedEvent,
   .TorrentQueueChangedEvent, .TorrentFolderRenamedEvent,
   .TorrentFileRenamedEvent, .TorrentFinishedEvent, .TorrentResumedEvent,
   .TorrentFileCompletedEvent, .TorrentStorageMovedEvent,
   .CreateTorrentProgressEvent, .NewVersionAvailableEvent,
   .SessionStartedEvent, .SessionPausedEvent, .SessionResumedEvent,
   .ConfigValueChangedEvent, .PluginEnabledEvent, .PluginDisabledEvent]

/-- The module-level `known_events` dict after the module body has run: the
metaclass hook fires once per class definition. -/
def known_events : List (String × EventClass) :=
  moduleClasses.foldl (fun reg c => registerEvent reg (className c) c) []

/-- Python errors arising at the modelled operations: calling a class with
the wrong number of positional arguments raises `TypeError`. -/
inductive PyError where
  | typeError
  deriving DecidableEq

/-- Number of positional parameters of each class's `__init__` (the base
class and the variants without an `__init__` take zero arguments). -/
def arity : EventClass → Nat
  | .DelugeEvent => 0
  | .TorrentAddedEvent => 2
  | .TorrentRemovedEvent => 1
  | .PreTorrentRemovedEvent => 1
  | .TorrentStateChangedEvent => 2
  | .TorrentQueueChangedEvent => 0
  | .TorrentFolderRenamedEvent => 3
  | .TorrentFileRenamedEvent => 3
  | .TorrentFinishedEvent => 1
  | .TorrentResumedEvent => 1
  | .TorrentFileCompletedEvent => 2
  | .TorrentStorageMovedEvent => 2
  | .CreateTorrentProgressEvent => 2
  | .NewVersionAvailableEvent => 1
  | .SessionStartedEvent => 0
  | .SessionPausedEvent => 0
  | .SessionResumedEvent => 0
  | .ConfigValueChangedEvent => 2
  | .PluginEnabledEvent => 1
  | .PluginDisabledEvent => 1

/-- Calling `Cls(arg1, ..., argN)` with positional arguments. Each `__init__`
in `event.py` accepts a fixed positional parameter list and stores the
values, in declaration order and with no check or coercion, in
`self._args`; the classes without an `__init__` leave `_args` unset. A call
whose argument count does not match the parameter list raises `TypeError`
(a Python language rule, checked before the body runs). -/
def construct : EventClass → List Value → Except PyError PyInstance
  | .DelugeEvent, [] => .ok ⟨.DelugeEvent, none⟩
  | .TorrentAddedEvent, [torrent_id, from_state] =>
      .ok ⟨.TorrentAddedEvent, some [torrent_id, from_state]⟩
  | .TorrentRemovedEvent, [torrent_id] =>
      .ok ⟨.TorrentRemovedEvent, some [torrent_id]⟩
  | .PreTorrentRemovedEvent, [torrent_id] =>
      .ok ⟨.PreTorrentRemovedEvent, some [torrent_id]⟩
  | .TorrentStateChangedEvent, [torrent_id, state] =>
      .ok ⟨.TorrentStateChangedEvent, some [torrent_id, state]⟩
  | .TorrentQueueChangedEvent, [] => .ok ⟨.TorrentQueueChangedEvent, none⟩
  | .TorrentFolderRenamedEvent, [torrent_id, old, new] =>
      .ok ⟨.TorrentFolderRenamedEvent, some [torrent_id, old, new]⟩
  | .TorrentFileRenamedEvent, [torrent_id, index, name] =>
      .ok ⟨.TorrentFileRenamedEvent, some [torrent_id, index, name]⟩
  | .TorrentFinishedEvent, [torrent_id] =>
      .ok ⟨.TorrentFinishedEvent, some [torrent_id]⟩
  | .TorrentResumedEvent, [torrent_id] =>
      .ok ⟨.TorrentResumedEvent, some [torrent_id]⟩
  | .TorrentFileCompletedEvent, [torrent_id, index] =>
      .ok ⟨.TorrentFileCompletedEvent, some [torrent_id, index]⟩
  | .TorrentStorageMovedEvent, [torrent_id, path] =>
      .ok ⟨.TorrentStorageMovedEvent, some [torrent_id, path]⟩
  | .CreateTorrentProgressEvent, [piece_count, num_pieces] =>
      .ok ⟨.CreateTorrentProgressEvent, some [piece_count, num_pieces]⟩
  | .NewVersionAvailableEvent, [new_release] =>
      .ok ⟨.NewVersionAvailableEvent, some [new_release]⟩
  | .SessionStartedEvent, [] => .ok ⟨.SessionStartedEvent, none⟩
  | .SessionPausedEvent, [] => .ok ⟨.SessionPausedEvent, none⟩
  | .SessionResumedEvent, [] => .ok ⟨.SessionResumedEvent, none⟩
  | .ConfigValueChangedEvent, [key, value] =>
      .ok ⟨.ConfigValueChangedEvent, some [key, value]⟩
  | .PluginEnabledEvent, [plugin_name] =>
      .ok ⟨.PluginEnabledEvent, some [plugin_name]⟩
  | .PluginDisabledEvent, [plugin_name] =>
      .ok ⟨.PluginDisabledEvent, some [plugin_name]⟩
  | _, _ => .error .typeError

lemma construct_ok_of_length (cls : EventClass) (args : List Value)
    (h : args.length = arity cls) :
    construct cls args =
      Except.ok ⟨cls, if arity cls = 0 then none else some args⟩ := by
  cases cls <;> simp only [arity] at h <;>
  first
  | (obtain rfl := List.length_eq_zero.mp h; rfl)
  | (obtain ⟨a, rfl⟩ := List.length_eq_one.mp h; rfl)
  | (obtain ⟨a, b, rfl⟩ := List.length_eq_two.mp h; rfl)
  | (obtain ⟨a, b, c, rfl⟩ := List.length_eq_three.mp h; rfl)

lemma construct_err_of_length (cls : EventClass) (args : List Value)
    (h : args.length ≠ arity cls) :
    construct cls args = Except.error PyError.typeError := by
  cases cls <;>
    rcases args with _ | ⟨a, _ | ⟨b, _ | ⟨c, _ | ⟨d, t⟩⟩⟩⟩ <;>
    first
    | rfl
    | exact absurd rfl h

lemma lookupClass_eq_none (reg : List (String × EventClass)) (k : String)
    (h : k ∉ reg.map Prod.fst) : lookupClass reg k = none := by
  induction reg with
  | nil => rfl
  | cons p rest ih =>
      simp only [List.map_cons, List.mem_cons, not_or] at h
      have hp : p.1 ≠ k := fun e => h.1 e.symm
      simp only [lookupClass, if_neg hp]
      exact ih h.2

lemma lookupClass_of_mem (reg : List (String × EventClass)) (k : String)
    (v : EventClass) (hnd : (reg.map Prod.fst).Nodup) (h : (k, v) ∈ reg) :
    lookupClass reg k = some v := by
  induction reg with
  | nil => cases h
  | cons p rest ih =>
      simp only [List.map_cons, List.nodup_cons] at hnd
      rcases List.mem_cons.mp h with h1 | h2
      · subst h1
        simp [lookupClass]
      · have hp : p.1 ≠ k := by
          intro e
          exact hnd.1 (e ▸ List.mem_map_of_mem Prod.fst h2)
        simp only [lookupClass, if_neg hp]
        exact ih hnd.2 h2

lemma dictAssign_lookup_self (reg : List (String × EventClass)) (k : String)
    (v : EventClass) : lookupClass (dictAssign reg k v) k = some v := by
  induction reg with
  | nil => simp [dictAssign, lookupClass]
  | cons p rest ih =>
      by_cases hp : p.1 = k
      · simp [dictAssign, hp, lookupClass]
      · simp only [dictAssign, if_neg hp, lookupClass, ih]

lemma dictAssign_lookup_other (reg : List (String × EventClass)) (k : String)
    (v : EventClass) (k' : String) (h : k' ≠ k) :
    lookupClass (dictAssign reg k v) k' = lookupClass reg k' := by
  induction reg with
  | nil =>
      simp only [dictAssign, lookupClass, if_neg (Ne.symm h)]
  | cons p rest ih =>
      by_cases hp : p.1 = k
      · have hk : p.1 ≠ k' := fun e => h (e.symm.trans hp)
        simp only [dictAssign, if_pos hp, lookupClass,
          if_neg (Ne.symm h), if_neg hk]
      · simp only [dictAssign, if_neg hp, lookupClass, ih]

lemma dictAssign_keys_mem (reg : List (String × EventClass)) (k : String)
    (v : EventClass) (k' : String) (h : k' ∈ reg.map Prod.fst) :
    k' ∈ (dictAssign reg k v).map Prod.fst := by
  induction reg with
  | nil => simp at h
  | cons p rest ih =>
      simp only [List.map_cons, List.mem_cons] at h
      by_cases hp : p.1 = k
      · simp only [dictAssign, if_pos hp, List.map_cons, List.mem_cons]
        rcases h with h1 | h2
        · left; rw [h1]; exact hp
        · right; exact h2
      · simp only [dictAssign, if_neg hp, List.map_cons, List.mem_cons]
        rcases h with h1 | h2
        · left; exact h1
        · right; exact ih h2

/-- C1: for every event variant, constructing an instance from constructor
arguments of the declared arity succeeds and the `args` view returns exactly
the supplied arguments, in order (round-trip identity between the
constructor and the `args` property). -/
theorem construct_argsView_roundtrip (cls : EventClass) (args : List Value)
    (h : args.length = arity cls) :
    ∃ e, construct cls args = Except.ok e ∧ _get_args e = args := by
  refine ⟨⟨cls, if arity cls = 0 then none else some args⟩,
    construct_ok_of_length cls args h, ?_⟩
  by_cases h0 : arity cls = 0
  · obtain rfl : args = [] := List.length_eq_zero.mp (h.trans h0)
    rw [if_pos h0]
    rfl
  · rw [if_neg h0]
    rfl

theorem construct_argsView_roundtrip_witness :
    ([Value.str "abc123", Value.bool false] : List Value).length =
        arity EventClass.TorrentAddedEvent
    ∧ ∃ e, construct EventClass.TorrentAddedEvent
          [Value.str "abc123", Value.bool false] = Except.ok e
        ∧ _get_args e = [Value.str "abc123", Value.bool false] :=
  ⟨rfl, construct_argsView_roundtrip EventClass.TorrentAddedEvent
    [Value.str "abc123", Value.bool false] rfl⟩

/-- C2 counterexample: `TorrentQueueChangedEvent()` constructs an instance
whose `name` property is `"TorrentQueueChangedEvent"` (the class name), not
the string `"TorrentQueueChanged"` the claim states. -/
theorem torrentQueueChanged_kindName_counterexample :
    construct EventClass.TorrentQueueChangedEvent [] =
        Except.ok ⟨EventClass.TorrentQueueChangedEvent, none⟩
    ∧ _get_name ⟨EventClass.TorrentQueueChangedEvent, none⟩ ≠
        "TorrentQueueChanged" := by
  exact ⟨rfl, by decide⟩

/-- C2 (amended): constructing `TorrentQueueChangedEvent` with no arguments
yields an instance whose `args` view is the empty list (not a missing
value) and whose `name` property is the class name
`"TorrentQueueChangedEvent"`. -/
theorem torrentQueueChanged_empty_args_name :
    construct EventClass.TorrentQueueChangedEvent [] =
        Except.ok ⟨EventClass.TorrentQueueChangedEvent, none⟩
    ∧ _get_args ⟨EventClass.TorrentQueueChangedEvent, none⟩ = []
    ∧ _get_name ⟨EventClass.TorrentQueueChangedEvent, none⟩ =
        "TorrentQueueChangedEvent" := by
  exact ⟨rfl, rfl, rfl⟩

/-- C9: reading the `args` property is total: for an instance whose class
never sets `_args` (every zero-field variant and the base class itself,
`arity cls = 0`), construction succeeds with the attribute absent and the
`args` view is the empty list rather than a failure or a missing value. -/
theorem zero_field_args_empty (cls : EventClass) (h : arity cls = 0) :
    construct cls [] = Except.ok ⟨cls, none⟩
    ∧ _get_args ⟨cls, none⟩ = [] := by
  cases cls <;> first
  | exact ⟨rfl, rfl⟩
  | simp [arity] at h

theorem zero_field_args_empty_witness :
    construct EventClass.SessionStartedEvent [] =
        Except.ok ⟨EventClass.SessionStartedEvent, none⟩
    ∧ _get_args ⟨EventClass.SessionStartedEvent, none⟩ = [] :=
  zero_field_args_empty EventClass.SessionStartedEvent rfl

/-- C3: the `name` property of an instance is derived from the class alone —
two instances of the same class have the same name whatever their stored
arguments — it equals the class name, and for every concrete variant that
name is exactly the key under which the variant is registered in
`known_events`. -/
theorem kindName_from_variant_identity (c : EventClass)
    (a₁ a₂ : Option (List Value)) :
    _get_name ⟨c, a₁⟩ = _get_name ⟨c, a₂⟩
    ∧ _get_name ⟨c, a₁⟩ = className c
    ∧ (c ≠ EventClass.DelugeEvent →
        lookupClass known_events (className c) = some c) := by
  refine ⟨rfl, rfl, fun hc => ?_⟩
  cases c <;> first
  | exact absurd rfl hc
  | decide

theorem kindName_from_variant_identity_witness :
    _get_name ⟨EventClass.TorrentAddedEvent, none⟩ =
        _get_name ⟨EventClass.TorrentAddedEvent, some [Value.int 0]⟩
    ∧ lookupClass known_events (className EventClass.TorrentAddedEvent) =
        some EventClass.TorrentAddedEvent :=
  ⟨(kindName_from_variant_identity EventClass.TorrentAddedEvent none
      (some [Value.int 0])).1,
   (kindName_from_variant_identity EventClass.TorrentAddedEvent none
      (some [Value.int 0])).2.2 (by decide)⟩

/-- C4 counterexample: `known_events` maps `"TorrentAddedEvent"` to
`TorrentAddedEvent`, yet running the metaclass registration again with the
same name and a different class raises nothing and replaces the entry —
the registration neither fails nor leaves the existing entry unchanged. -/
theorem duplicate_register_counterexample :
    lookupClass known_events "TorrentAddedEvent" =
        some EventClass.TorrentAddedEvent
    ∧ lookupClass
        (registerEvent known_events "TorrentAddedEvent"
          EventClass.PluginEnabledEvent) "TorrentAddedEvent" =
        some EventClass.PluginEnabledEvent := by
  exact ⟨by decide, by decide⟩

/-- C4 (amended): registering a kind under a name that is already present
does not fail; the source's `known_events[name] = cls` silently overwrites,
so afterwards the name maps to the newly supplied class, and every other
key is unaffected (last registration wins). -/
theorem register_overwrites (reg : List (String × EventClass))
    (name : String) (cls : EventClass) (h : name ≠ "DelugeEvent") :
    lookupClass (registerEvent reg name cls) name = some cls
    ∧ ∀ k, k ≠ name →
        lookupClass (registerEvent reg name cls) k = lookupClass reg k := by
  constructor
  · simp only [registerEvent, if_neg h]
    exact dictAssign_lookup_self reg name cls
  · intro k hk
    simp only [registerEvent, if_neg h]
    exact dictAssign_lookup_other reg name cls k hk

theorem register_overwrites_witness :
    lookupClass
        (registerEvent known_events "TorrentAddedEvent"
          EventClass.PluginEnabledEvent) "TorrentAddedEvent" =
        some EventClass.PluginEnabledEvent
    ∧ lookupClass
        (registerEvent known_events "TorrentAddedEvent"
          EventClass.PluginEnabledEvent) "TorrentRemovedEvent" =
        lookupClass known_events "TorrentRemovedEvent" :=
  ⟨(register_overwrites known_events "TorrentAddedEvent"
      EventClass.PluginEnabledEvent (by decide)).1,
   (register_overwrites known_events "TorrentAddedEvent"
      EventClass.PluginEnabledEvent (by decide)).2
      "TorrentRemovedEvent" (by decide)⟩

/-- C5 counterexample: `TorrentAddedEvent`'s second parameter `from_state`
is documented as a bool, yet passing the int `42` is accepted without any
error and an instance is produced — construction performs no type check
and raises no `InvalidEventArgsError`. -/
theorem construct_no_type_check_counterexample :
    construct EventClass.TorrentAddedEvent
        [Value.str "abc123", Value.int 42] =
      Except.ok ⟨EventClass.TorrentAddedEvent,
        some [Value.str "abc123", Value.int 42]⟩ := by
  exact rfl

/-- C5 (amended): constructing with the wrong number of arguments fails at
construction time with Python's `TypeError` arity failure (not an
`InvalidEventArgsError`, which does not exist in the module) and no
instance is produced; constructing with the declared number of arguments
always succeeds — argument values are stored unchecked and uncoerced, so an
argument incompatible with the documented field type is accepted. -/
theorem construct_arity_check (cls : EventClass) (args : List Value) :
    (args.length ≠ arity cls →
      construct cls args = Except.error PyError.typeError)
    ∧ (args.length = arity cls → ∃ e, construct cls args = Except.ok e) :=
  ⟨fun h => construct_err_of_length cls args h,
   fun h => ⟨_, construct_ok_of_length cls args h⟩⟩

theorem construct_arity_check_witness :
    construct EventClass.TorrentRemovedEvent [] =
        Except.error PyError.typeError
    ∧ ∃ e, construct EventClass.TorrentRemovedEvent [Value.str "t"] =
        Except.ok e :=
  ⟨(construct_arity_check EventClass.TorrentRemovedEvent []).1 (by decide),
   (construct_arity_check EventClass.TorrentRemovedEvent
      [Value.str "t"]).2 rfl⟩

/-- C6: looking up a name absent from `known_events` yields no entry (the
`KeyError` case of the dict), and looking up a registered name yields
exactly the class registered under it. -/
theorem lookup_total_correct (name : String) (c : EventClass) :
    (name ∉ known_events.map Prod.fst →
      lookupClass known_events name = none)
    ∧ ((name, c) ∈ known_events → lookupClass known_events name = some c) :=
  ⟨fun h => lookupClass_eq_none known_events name h,
   fun h => lookupClass_of_mem known_events name c (by decide) h⟩

theorem lookup_total_correct_witness :
    lookupClass known_events "NoSuchEvent" = none
    ∧ lookupClass known_events "SessionStartedEvent" =
        some EventClass.SessionStartedEvent :=
  ⟨(lookup_total_correct "NoSuchEvent" EventClass.DelugeEvent).1
      (by decide),
   (lookup_total_correct "SessionStartedEvent"
      EventClass.SessionStartedEvent).2 (by decide)⟩

/-- C7: registry uniqueness and growth — the keys of `known_events` are
pairwise distinct, every concrete variant's class name occurs exactly once
among them (each variant is registered exactly once, by the metaclass hook
that fires at class definition), and a registration step never removes an
existing key from the registry (the registry only grows). -/
theorem registry_unique_and_grows :
    (known_events.map Prod.fst).Nodup
    ∧ (∀ c : EventClass, c ≠ EventClass.DelugeEvent →
        List.count (className c) (known_events.map Prod.fst) = 1)
    ∧ (∀ (reg : List (String × EventClass)) (name : String)
        (cls : EventClass) (k : String), k ∈ reg.map Prod.fst →
          k ∈ (registerEvent reg name cls).map Prod.fst) := by
  refine ⟨by decide, fun c hc => ?_, fun reg name cls k hk => ?_⟩
  · cases c <;> first
    | exact absurd rfl hc
    | decide
  · by_cases hn : name = "DelugeEvent"
    · simpa [registerEvent, hn] using hk
    · simpa [registerEvent, hn] using
        dictAssign_keys_mem reg name cls k hk

theorem registry_unique_and_grows_witness :
    List.count (className EventClass.TorrentAddedEvent)
        (known_events.map Prod.fst) = 1
    ∧ "SessionStartedEvent" ∈
        (registerEvent known_events "PluginEnabledEvent"
          EventClass.PluginEnabledEvent).map Prod.fst :=
  ⟨registry_unique_and_grows.2.1 EventClass.TorrentAddedEvent (by decide),
   registry_unique_and_grows.2.2 known_events "PluginEnabledEvent"
     EventClass.PluginEnabledEvent "SessionStartedEvent" (by decide)⟩

/-- C8: after the module body has run, `known_events` holds exactly the 19
concrete event variants, in definition order, each keyed by its own class
name; it has length 19, every entry's key is the class name of its value,
and `"DelugeEvent"` (the abstract base class) is not a key. -/
theorem registry_contents :
    known_events =
      [("TorrentAddedEvent", EventClass.TorrentAddedEvent),
       ("TorrentRemovedEvent", EventClass.TorrentRemovedEvent),
       ("PreTorrentRemovedEvent", EventClass.PreTorrentRemovedEvent),
       ("TorrentStateChangedEvent", EventClass.TorrentStateChangedEvent),
       ("TorrentQueueChangedEvent", EventClass.TorrentQueueChangedEvent),
       ("TorrentFolderRenamedEvent", EventClass.TorrentFolderRenamedEvent),
       ("TorrentFileRenamedEvent", EventClass.TorrentFileRenamedEvent),
       ("TorrentFinishedEvent", EventClass.TorrentFinishedEvent),
       ("TorrentResumedEvent", EventClass.TorrentResumedEvent),
       ("TorrentFileCompletedEvent", EventClass.TorrentFileCompletedEvent),
       ("TorrentStorageMovedEvent", EventClass.TorrentStorageMovedEvent),
       ("CreateTorrentProgressEvent", EventClass.CreateTorrentProgressEvent),
       ("NewVersionAvailableEvent", EventClass.NewVersionAvailableEvent),
       ("SessionStartedEvent", EventClass.SessionStartedEvent),
       ("SessionPausedEvent", EventClass.SessionPausedEvent),
       ("SessionResumedEvent", EventClass.SessionResumedEvent),
       ("ConfigValueChangedEvent", EventClass.ConfigValueChangedEvent),
       ("PluginEnabledEvent", EventClass.PluginEnabledEvent),
       ("PluginDisabledEvent", EventClass.PluginDisabledEvent)]
    ∧ known_events.length = 19
    ∧ known_events.all (fun p => p.1 == className p.2) = true
    ∧ "DelugeEvent" ∉ known_events.map Prod.fst := by
  exact ⟨by decide, by decide, by decide, by decide⟩

/-- C10: for every instance of a concrete event variant, looking the
instance's `name` property up in `known_events` yields exactly the class
of which it is an instance — the name an instance reports and the registry
key of its variant always agree. -/
theorem instance_name_lookup (e : PyInstance)
    (h : e.cls ≠ EventClass.DelugeEvent) :
    lookupClass known_events (_get_name e) = some e.cls := by
  obtain ⟨c, a⟩ := e
  show lookupClass known_events (className c) = some c
  cases c <;> first
  | exact absurd rfl h
  | decide

theorem instance_name_lookup_witness :
    lookupClass known_events
        (_get_name ⟨EventClass.TorrentFinishedEvent, some [Value.str "t"]⟩) =
      some EventClass.TorrentFinishedEvent :=
  instance_name_lookup
    ⟨EventClass.TorrentFinishedEvent, some [Value.str "t"]⟩ (by decide)

end Deluge
